import Mathlib

/-
Verification of the state-reconciliation logic of the ansible-powerdns-auth
collection against its specification.

The definitions below are shallow embeddings of the Python source:
  - src/plugins/modules/rrset.py        (RRset differ, module main)
  - src/plugins/modules/zone.py         (metadata registry, zone module main)
  - src/plugins/modules/cryptokey.py    (cryptokey module main)
  - src/plugins/module_utils/api_wrapper.py (remote API wrapper surface)
  - pdns_auth_zone.py                   (legacy flat zone module)
Dictionaries become structures, the dynamic per-kind metadata classes become
one function per class, and the remote server is modelled only at its
interface, as the specification directs.
-/

deriving instance DecidableEq for Except

namespace PdnsAuth

/-- A DNS record as the rrset module handles it: a mapping with a
content string and a disabled flag (rrset.py, module argument records,
and the records returned by the server). -/
structure RRecord where
  content : String
  disabled : Bool
deriving DecidableEq

/-- An existing RRset of the zone, one entry of zone_rrsets as returned
by the server (rrset.py, get_rrsets). -/
structure ZoneRRset where
  name : String
  type : String
  ttl : Nat
  records : List RRecord
deriving DecidableEq

/-- The changetype field of an RRset patch (rrset.py main: REPLACE when
state is present, DELETE when state is absent). -/
inductive Changetype where
  | REPLACE
  | DELETE
deriving DecidableEq

/-- One entry of rrsets_struct as built by rrset.py main from the module
parameters: the desired RRset together with the keep flag and the
changetype intent.  The type field is optional because the classic
records path passes params of key type through unchanged, which may be
None. -/
structure DesiredRRset where
  name : String
  type : Option String
  ttl : Nat
  keep : Bool
  changetype : Changetype
  records : List RRecord
deriving DecidableEq

/-- One entry appended to zone_struct of key rrsets by rrset.py main.
The code appends mappings of two shapes: the full desired RRset
(name, type, ttl, changetype, records) and, for the keep-and-exact-match
delete, a slim mapping holding only name, type and changetype; ttl and
records are therefore optional here. -/
structure PatchEntry where
  name : String
  type : Option String
  changetype : Changetype
  ttl : Option Nat
  records : Option (List RRecord)
deriving DecidableEq

/-- The match used by rrset.py main to retrieve the existing RRset:
r of key name equals the desired name and r of key type equals the
desired type.  The existing type is a string while the desired type may
be None, exactly as in the Python comparison. -/
def keyMatches (p_name : String) (p_type : Option String) (r : ZoneRRset) : Bool :=
  decide (r.name = p_name ∧ some r.type = p_type)

/-- rrset.py main, lines 1301-1304: existing_rrset is the first element
of zone_rrsets whose name and type match the desired RRset, or None. -/
def findExisting (zone_rrsets : List ZoneRRset) (rrset : DesiredRRset) : Option ZoneRRset :=
  zone_rrsets.find? (keyMatches rrset.name rrset.type)

/-- rrset.py main, lines 1306-1363: the patch entries contributed to
zone_struct by one desired RRset, or the fail_json message that aborts
the module.  This is a direct transcription of the branch structure of
the loop body. -/
def processRRset (zone_rrsets : List ZoneRRset) (rrset : DesiredRRset) :
    Except String (List PatchEntry) :=
  let existing_rrset := findExisting zone_rrsets rrset
  if existing_rrset.isNone || !rrset.keep then
    match rrset.changetype with
    | Changetype.REPLACE =>
      if rrset.type.isSome then
        Except.ok [{ name := rrset.name, type := rrset.type, changetype := Changetype.REPLACE,
                     ttl := some rrset.ttl, records := some rrset.records }]
      else
        Except.error "No valid record found for RRset creation."
    | Changetype.DELETE =>
      if existing_rrset.isSome then
        Except.ok [{ name := rrset.name, type := rrset.type, changetype := Changetype.DELETE,
                     ttl := some rrset.ttl, records := some rrset.records }]
      else
        Except.error ("No matching RRset found for name: " ++ rrset.name)
  else
    match existing_rrset with
    | some ex =>
      if rrset.records = ex.records then
        match rrset.changetype with
        | Changetype.DELETE =>
          Except.ok [{ name := rrset.name, type := rrset.type, changetype := Changetype.DELETE,
                       ttl := none, records := none }]
        | Changetype.REPLACE => Except.ok []
      else
        let new_records_list :=
          match rrset.changetype with
          | Changetype.REPLACE =>
            ex.records ++ rrset.records.filter (fun r => decide (r ∉ ex.records))
          | Changetype.DELETE =>
            ex.records.filter (fun r => decide (r ∉ rrset.records))
        if new_records_list = ex.records then Except.ok []
        else
          Except.ok [{ name := rrset.name, type := rrset.type, changetype := Changetype.REPLACE,
                       ttl := some rrset.ttl, records := some new_records_list }]
    | none => Except.ok []

/-- rrset.py main, lines 1296-1363: zone_struct of key rrsets, collected
over the whole list of desired RRsets; fail_json aborts the module at
the first error. -/
def rrsetsPatch (zone_rrsets : List ZoneRRset) (desired : List DesiredRRset) :
    Except String (List PatchEntry) :=
  match desired with
  | [] => Except.ok []
  | d :: rest =>
    match processRRset zone_rrsets d with
    | Except.error e => Except.error e
    | Except.ok ps =>
      match rrsetsPatch zone_rrsets rest with
      | Except.error e => Except.error e
      | Except.ok rest_ps => Except.ok (ps ++ rest_ps)

/-- Modelled from the spec: the patch-zone operation of the remote
server (an external collaborator, spec section 6), applied to one RRset
patch entry.  A DELETE entry removes the RRset of that name and type; a
REPLACE entry removes it and installs the supplied records and ttl in
its place. -/
def applyPatchEntry (rrsets : List ZoneRRset) (p : PatchEntry) : List ZoneRRset :=
  let others := rrsets.filter (fun r => !keyMatches p.name p.type r)
  match p.changetype with
  | Changetype.DELETE => others
  | Changetype.REPLACE =>
    match p.type, p.ttl, p.records with
    | some t, some ttl, some recs =>
      others ++ [{ name := p.name, type := t, ttl := ttl, records := recs }]
    | _, _, _ => rrsets

/-- Modelled from the spec: the remote server applies the entries of one
patch-zone request in order. -/
def applyPatches (rrsets : List ZoneRRset) (ps : List PatchEntry) : List ZoneRRset :=
  ps.foldl applyPatchEntry rrsets

/-- rrset.py main, lines 1296-1371: one full reconciliation step for a
set of desired RRsets against the current zone RRsets: compute
zone_struct, and when it is non-empty issue the patch (modelled by
applyPatches) and report changed, otherwise leave the zone untouched
and report unchanged. -/
def rrsetApplyStep (zone_rrsets : List ZoneRRset) (desired : List DesiredRRset) :
    Except String (List ZoneRRset × Bool) :=
  match rrsetsPatch zone_rrsets desired with
  | Except.error e => Except.error e
  | Except.ok ps =>
    if ps = [] then Except.ok (zone_rrsets, false)
    else Except.ok (applyPatches zone_rrsets ps, true)

/-
Zone metadata (zone.py lines 640-1032, pdns_auth_zone.py lines 609-877).
Each metadata class carries a default, a set function and an update
function; the update functions below return the changed flag the source
returns together with the list of remote metadata calls they issue.
-/

/-- A remote call issued through APIZoneMetadataWrapper by the metadata
update and set functions: modifyMetadata with a metadata value list, or
deleteMetadata. -/
inductive MetadataApiCall where
  | modifyMetadata (metadata_kind : String) (metadata : List String)
  | deleteMetadata (metadata_kind : String)
deriving DecidableEq

/-- The metadata kind a remote metadata call is addressed to. -/
def MetadataApiCall.kind : MetadataApiCall → String
  | MetadataApiCall.modifyMetadata k _ => k
  | MetadataApiCall.deleteMetadata k => k

/-- zone.py lines 727-738, MetadataBinaryValue.update: no-op when new
equals old, modifyMetadata with metadata list of the single string one
when the new value is true, deleteMetadata when it is false. -/
def MetadataBinaryValue.update (api_kind : String) (oldval newval : Bool) :
    Bool × List MetadataApiCall :=
  if newval = oldval then (false, [])
  else if newval then (true, [MetadataApiCall.modifyMetadata api_kind ["1"]])
  else (true, [MetadataApiCall.deleteMetadata api_kind])

/-- zone.py lines 755-766, MetadataBinaryPresence.update: as the binary
value but the modify carries a single empty string. -/
def MetadataBinaryPresence.update (api_kind : String) (oldval newval : Bool) :
    Bool × List MetadataApiCall :=
  if newval = oldval then (false, [])
  else if newval then (true, [MetadataApiCall.modifyMetadata api_kind [""]])
  else (true, [MetadataApiCall.deleteMetadata api_kind])

/-- zone.py lines 789-806, MetadataTernaryValue.update: no-op when new
equals old; modifyMetadata with the explicit one or zero encoding when
the new value is non-null; deleteMetadata when it is null. -/
def MetadataTernaryValue.update (api_kind : String) (oldval newval : Option Bool) :
    Bool × List MetadataApiCall :=
  if newval = oldval then (false, [])
  else
    match newval with
    | some true => (true, [MetadataApiCall.modifyMetadata api_kind ["1"]])
    | some false => (true, [MetadataApiCall.modifyMetadata api_kind ["0"]])
    | none => (true, [MetadataApiCall.deleteMetadata api_kind])

/-- zone.py lines 823-834, MetadataListValue.update: no-op when the new
list equals the old one (plain Python list equality), modifyMetadata
with the new list when it is non-empty, deleteMetadata when it is
empty. -/
def MetadataListValue.update (api_kind : String) (oldval newval : List String) :
    Bool × List MetadataApiCall :=
  if newval = oldval then (false, [])
  else if newval.length ≠ 0 then (true, [MetadataApiCall.modifyMetadata api_kind newval])
  else (true, [MetadataApiCall.deleteMetadata api_kind])

/-- zone.py lines 851-862, MetadataStringValue.update: no-op on
equality, modifyMetadata with the single-element list when the new
string is non-empty, deleteMetadata when it is empty. -/
def MetadataStringValue.update (api_kind : String) (oldval newval : String) :
    Bool × List MetadataApiCall :=
  if newval = oldval then (false, [])
  else if newval.length ≠ 0 then (true, [MetadataApiCall.modifyMetadata api_kind [newval]])
  else (true, [MetadataApiCall.deleteMetadata api_kind])

/-- zone.py lines 720-725, MetadataBinaryValue.set. -/
def MetadataBinaryValue.set (api_kind : String) (value : Bool) : List MetadataApiCall :=
  if value then [MetadataApiCall.modifyMetadata api_kind ["1"]] else []

/-- zone.py lines 748-753, MetadataBinaryPresence.set. -/
def MetadataBinaryPresence.set (api_kind : String) (value : Bool) : List MetadataApiCall :=
  if value then [MetadataApiCall.modifyMetadata api_kind [""]] else []

/-- zone.py lines 776-787, MetadataTernaryValue.set. -/
def MetadataTernaryValue.set (api_kind : String) (value : Option Bool) : List MetadataApiCall :=
  match value with
  | some true => [MetadataApiCall.modifyMetadata api_kind ["1"]]
  | some false => [MetadataApiCall.modifyMetadata api_kind ["0"]]
  | none => []

/-- zone.py lines 816-821, MetadataListValue.set. -/
def MetadataListValue.set (api_kind : String) (value : List String) : List MetadataApiCall :=
  if value.length ≠ 0 then [MetadataApiCall.modifyMetadata api_kind value] else []

/-- zone.py lines 844-849, MetadataStringValue.set. -/
def MetadataStringValue.set (api_kind : String) (value : String) : List MetadataApiCall :=
  if value.length ≠ 0 then [MetadataApiCall.modifyMetadata api_kind [value]] else []

/-- The five metadata value classes of zone.py (the class a registry
entry is instantiated from). -/
inductive MetaClass where
  | binaryValue
  | binaryPresence
  | ternaryValue
  | listValue
  | stringValue
deriving DecidableEq

/-- A semantic metadata value as stored in the user_meta mapping: the
dynamic Python value is one of a boolean, a ternary optional boolean,
a list of strings or a string. -/
inductive MetaValue where
  | bool (b : Bool)
  | ternary (t : Option Bool)
  | list (l : List String)
  | str (s : String)
deriving DecidableEq

/-- One entry of the Metadata registry (zone.py lines 1009-1023): the
remote api_kind tag, the derived meta key, the value class and the
immutable flag (set only on LUA-AXFR-SCRIPT). -/
structure MetadataEntry where
  api_kind : String
  meta : String
  cls : MetaClass
  immutable : Bool
deriving DecidableEq

/-- zone.py line 646: the meta key of a registry entry is the api_kind
lowered with dashes replaced by underscores.  Written character by
character; on the kind tags of the registry (uppercase letters and
dashes) this agrees with lowering and then replacing dashes. -/
def metaOf (api_kind : String) : String :=
  String.mk (api_kind.data.map (fun c => if c = '-' then '_' else c.toLower))

/-- The Metadata registry as constructed at import time by zone.py
lines 1009-1023, in construction order. -/
def metadataRegistry : List MetadataEntry :=
  [ ⟨"ALLOW-DNSUPDATE-FROM", metaOf "ALLOW-DNSUPDATE-FROM", MetaClass.listValue, false⟩,
    ⟨"ALLOW-AXFR-FROM", metaOf "ALLOW-AXFR-FROM", MetaClass.listValue, false⟩,
    ⟨"ALSO-NOTIFY", metaOf "ALSO-NOTIFY", MetaClass.listValue, false⟩,
    ⟨"AXFR-SOURCE", metaOf "AXFR-SOURCE", MetaClass.stringValue, false⟩,
    ⟨"FORWARD-DNSUPDATE", metaOf "FORWARD-DNSUPDATE", MetaClass.binaryPresence, false⟩,
    ⟨"GSS-ACCEPTOR-PRINCIPAL", metaOf "GSS-ACCEPTOR-PRINCIPAL", MetaClass.stringValue, false⟩,
    ⟨"GSS-ALLOW-AXFR-PRINCIPAL", metaOf "GSS-ALLOW-AXFR-PRINCIPAL", MetaClass.stringValue, false⟩,
    ⟨"IXFR", metaOf "IXFR", MetaClass.binaryValue, false⟩,
    ⟨"LUA-AXFR-SCRIPT", metaOf "LUA-AXFR-SCRIPT", MetaClass.stringValue, true⟩,
    ⟨"NOTIFY-DNSUPDATE", metaOf "NOTIFY-DNSUPDATE", MetaClass.binaryValue, false⟩,
    ⟨"PUBLISH-CDNSKEY", metaOf "PUBLISH-CDNSKEY", MetaClass.binaryValue, false⟩,
    ⟨"PUBLISH-CDS", metaOf "PUBLISH-CDS", MetaClass.listValue, false⟩,
    ⟨"SLAVE-RENOTIFY", metaOf "SLAVE-RENOTIFY", MetaClass.ternaryValue, false⟩,
    ⟨"SOA-EDIT-DNSUPDATE", metaOf "SOA-EDIT-DNSUPDATE", MetaClass.stringValue, false⟩,
    ⟨"TSIG-ALLOW-DNSUPDATE", metaOf "TSIG-ALLOW-DNSUPDATE", MetaClass.listValue, false⟩ ]

/-- zone.py lines 654-656, Metadata.by_meta via map_by_meta: lookup of
a registry entry by its meta key. -/
def Metadata.by_meta (meta : String) : Option MetadataEntry :=
  metadataRegistry.find? (fun e => decide (e.meta = meta))

/-- The user-supplied or observed metadata mapping, meta key to dynamic
value; absent keys model Python None lookups. -/
def UserMeta := List (String × MetaValue)

/-- Python dict get: the first value stored under the key, if any. -/
def UserMeta.get (m : UserMeta) (k : String) : Option MetaValue :=
  (List.find? (fun kv => decide (kv.1 = k)) m).map Prod.snd

/-- The coercion of a possibly-absent dynamic value to the boolean a
binary class works on, following value_or_default (zone.py lines
651-652): absent means the class default. -/
def coerceBool : Option MetaValue → Bool
  | some (MetaValue.bool b) => b
  | _ => false

/-- The coercion to the ternary optional boolean; the class default is
null, so absence stays null. -/
def coerceTernary : Option MetaValue → Option Bool
  | some (MetaValue.ternary t) => t
  | _ => none

/-- The coercion to the string list a list class works on; the class
default is the empty list. -/
def coerceList : Option MetaValue → List String
  | some (MetaValue.list l) => l
  | _ => []

/-- The coercion to the string a string class works on; the class
default is the empty string. -/
def coerceStr : Option MetaValue → String
  | some (MetaValue.str s) => s
  | _ => ""

/-- Dispatch of one registry entry to the set function of its class,
with value_or_default applied to the stored value (zone.py lines
686-691). -/
def dispatchSet (e : MetadataEntry) (value : Option MetaValue) : List MetadataApiCall :=
  match e.cls with
  | MetaClass.binaryValue => MetadataBinaryValue.set e.api_kind (coerceBool value)
  | MetaClass.binaryPresence => MetadataBinaryPresence.set e.api_kind (coerceBool value)
  | MetaClass.ternaryValue => MetadataTernaryValue.set e.api_kind (coerceTernary value)
  | MetaClass.listValue => MetadataListValue.set e.api_kind (coerceList value)
  | MetaClass.stringValue => MetadataStringValue.set e.api_kind (coerceStr value)

/-- Dispatch of one registry entry to the update function of its class:
the old value is the raw lookup, the new value goes through
value_or_default (zone.py lines 703-707). -/
def dispatchUpdate (e : MetadataEntry) (oldv newv : Option MetaValue) :
    Bool × List MetadataApiCall :=
  match e.cls with
  | MetaClass.binaryValue =>
    MetadataBinaryValue.update e.api_kind (coerceBool oldv) (coerceBool newv)
  | MetaClass.binaryPresence =>
    MetadataBinaryPresence.update e.api_kind (coerceBool oldv) (coerceBool newv)
  | MetaClass.ternaryValue =>
    MetadataTernaryValue.update e.api_kind (coerceTernary oldv) (coerceTernary newv)
  | MetaClass.listValue =>
    MetadataListValue.update e.api_kind (coerceList oldv) (coerceList newv)
  | MetaClass.stringValue =>
    MetadataStringValue.update e.api_kind (coerceStr oldv) (coerceStr newv)

/-- zone.py lines 681-694, Metadata.setters: one setter per user_meta
item whose meta key is registered and not immutable, paired with the
stored value it will set. -/
def Metadata.setters (user_meta : UserMeta) : List (MetadataEntry × Option MetaValue) :=
  user_meta.filterMap (fun mv =>
    match Metadata.by_meta mv.1 with
    | some m => if m.immutable then none else some (m, some mv.2)
    | none => none)

/-- zone.py lines 696-710, Metadata.updaters: one updater per
non-immutable registry entry, paired with the old and new values it
will compare. -/
def Metadata.updaters (old_user_meta new_user_meta : UserMeta) :
    List (MetadataEntry × Option MetaValue × Option MetaValue) :=
  metadataRegistry.filterMap (fun v =>
    if v.immutable then none
    else some (v, old_user_meta.get v.meta, new_user_meta.get v.meta))

/-- The remote metadata calls issued when zone.py main runs every
setter returned by Metadata.setters (zone.py lines 1471-1473). -/
def metadataSetterCalls (user_meta : UserMeta) : List MetadataApiCall :=
  (Metadata.setters user_meta).flatMap (fun s => dispatchSet s.1 s.2)

/-- The remote metadata calls issued when zone.py main runs every
updater returned by Metadata.updaters (zone.py lines 1512-1515). -/
def metadataUpdaterCalls (old_user_meta new_user_meta : UserMeta) : List MetadataApiCall :=
  (Metadata.updaters old_user_meta new_user_meta).flatMap
    (fun u => (dispatchUpdate u.1 u.2.1 u.2.2).2)

/-
ZoneMetadata: metadata items stored as zone fields rather than remote
metadata entries (zone.py lines 865-1006 and 1025-1032).  Their set and
update functions write entries into zone_struct instead of issuing
remote metadata calls.
-/

/-- A value written into zone_struct by a ZoneMetadata class: a string
for the binary, ternary and string classes, a list for the list class. -/
inductive ZoneStructValue where
  | str (v : String)
  | list (v : List String)
deriving DecidableEq

/-- One entry of the ZoneMetadata registry (zone.py lines 1025-1032):
the api_kind tag, the zone_kind field written into zone_struct, the
derived meta key, the value class and the immutable flag (set only on
PRESIGNED). -/
structure ZoneMetadataEntry where
  api_kind : String
  zone_kind : String
  meta : String
  cls : MetaClass
  immutable : Bool
deriving DecidableEq

/-- The ZoneMetadata registry as constructed at import time by zone.py
lines 1025-1032, in construction order. -/
def zoneMetadataRegistry : List ZoneMetadataEntry :=
  [ ⟨"API-RECTIFY", "api_rectify", metaOf "API-RECTIFY", MetaClass.binaryValue, false⟩,
    ⟨"AXFR-MASTER-TSIG", "slave_tsig_key_ids", metaOf "AXFR-MASTER-TSIG",
      MetaClass.listValue, false⟩,
    ⟨"NSEC3NARROW", "nsec3narrow", metaOf "NSEC3NARROW", MetaClass.binaryValue, false⟩,
    ⟨"NSEC3PARAM", "nsec3param", metaOf "NSEC3PARAM", MetaClass.stringValue, false⟩,
    ⟨"PRESIGNED", "presigned", metaOf "PRESIGNED", MetaClass.binaryValue, true⟩,
    ⟨"SOA-EDIT", "soa_edit", metaOf "SOA-EDIT", MetaClass.stringValue, false⟩,
    ⟨"SOA-EDIT-API", "soa_edit_api", metaOf "SOA-EDIT-API", MetaClass.stringValue, false⟩,
    ⟨"TSIG-ALLOW-AXFR", "master_tsig_key_ids", metaOf "TSIG-ALLOW-AXFR",
      MetaClass.listValue, false⟩ ]

/-- zone.py lines 940-949 and 959-974 and 984-990 and 1000-1006: the
zone_struct writes performed by the set function of one ZoneMetadata
entry, dispatched on its class. -/
def zoneDispatchSet (e : ZoneMetadataEntry) (value : Option MetaValue) :
    List (String × ZoneStructValue) :=
  match e.cls with
  | MetaClass.binaryValue =>
    if coerceBool value then [(e.zone_kind, ZoneStructValue.str "1")] else []
  | MetaClass.binaryPresence =>
    if coerceBool value then [(e.zone_kind, ZoneStructValue.str "1")] else []
  | MetaClass.ternaryValue =>
    match coerceTernary value with
    | some true => [(e.zone_kind, ZoneStructValue.str "1")]
    | some false => [(e.zone_kind, ZoneStructValue.str "0")]
    | none => []
  | MetaClass.listValue =>
    if coerceList value ≠ [] then [(e.zone_kind, ZoneStructValue.list (coerceList value))]
    else []
  | MetaClass.stringValue =>
    if coerceStr value ≠ "" then [(e.zone_kind, ZoneStructValue.str (coerceStr value))]
    else []

/-- zone.py lines 944-949 and 966-974 and 988-990 and 1004-1006: the
zone_struct writes performed by the update function of one ZoneMetadata
entry. -/
def zoneDispatchUpdate (e : ZoneMetadataEntry) (oldv newv : Option MetaValue) :
    List (String × ZoneStructValue) :=
  match e.cls with
  | MetaClass.binaryValue =>
    if coerceBool newv ≠ coerceBool oldv then
      [(e.zone_kind, ZoneStructValue.str (if coerceBool newv then "1" else "0"))]
    else []
  | MetaClass.binaryPresence =>
    if coerceBool newv ≠ coerceBool oldv then
      [(e.zone_kind, ZoneStructValue.str (if coerceBool newv then "1" else "0"))]
    else []
  | MetaClass.ternaryValue =>
    if coerceTernary newv ≠ coerceTernary oldv then
      match coerceTernary newv with
      | some true => [(e.zone_kind, ZoneStructValue.str "1")]
      | some false => [(e.zone_kind, ZoneStructValue.str "0")]
      | none => [(e.zone_kind, ZoneStructValue.str "")]
    else []
  | MetaClass.listValue =>
    if coerceList newv ≠ coerceList oldv then
      [(e.zone_kind, ZoneStructValue.list (coerceList newv))]
    else []
  | MetaClass.stringValue =>
    if coerceStr newv ≠ coerceStr oldv then
      [(e.zone_kind, ZoneStructValue.str (coerceStr newv))]
    else []

/-- zone.py lines 883-885, ZoneMetadata.by_meta via map_by_meta. -/
def ZoneMetadata.by_meta (meta : String) : Option ZoneMetadataEntry :=
  zoneMetadataRegistry.find? (fun e => decide (e.meta = meta))

/-- zone.py lines 901-914, ZoneMetadata.setters: one setter per
user_meta item whose meta key is registered and not immutable, paired
with the stored value. -/
def ZoneMetadata.setters (user_meta : UserMeta) :
    List (ZoneMetadataEntry × Option MetaValue) :=
  user_meta.filterMap (fun mv =>
    match ZoneMetadata.by_meta mv.1 with
    | some m => if m.immutable then none else some (m, some mv.2)
    | none => none)

/-- zone.py lines 916-930, ZoneMetadata.updaters: one updater per
non-immutable registry entry, paired with the old and new values. -/
def ZoneMetadata.updaters (old_user_meta new_user_meta : UserMeta) :
    List (ZoneMetadataEntry × Option MetaValue × Option MetaValue) :=
  zoneMetadataRegistry.filterMap (fun v =>
    if v.immutable then none
    else some (v, old_user_meta.get v.meta, new_user_meta.get v.meta))

/-- The zone_struct writes performed when zone.py main runs every
setter returned by ZoneMetadata.setters (zone.py lines 1461-1463). -/
def zoneMetadataSetterWrites (user_meta : UserMeta) : List (String × ZoneStructValue) :=
  (ZoneMetadata.setters user_meta).flatMap (fun s => zoneDispatchSet s.1 s.2)

/-- The zone_struct writes performed when zone.py main runs every
updater returned by ZoneMetadata.updaters (zone.py lines 1501-1506). -/
def zoneMetadataUpdaterWrites (old_user_meta new_user_meta : UserMeta) :
    List (String × ZoneStructValue) :=
  (ZoneMetadata.updaters old_user_meta new_user_meta).flatMap
    (fun u => zoneDispatchUpdate u.1 u.2.1 u.2.2)

/-- pdns_auth_zone.py lines 660-674, Metadata.updaters of the legacy
flat module: the new value passed to update is the expression
new_user_meta.get(k) or v.default(), which coerces a stored Python
False (and an absent key) to the default.  For a Ternary kind, whose
default is None, an explicit false target therefore becomes null. -/
def legacyTernaryNewval (v : Option Bool) : Option Bool :=
  match v with
  | some true => some true
  | _ => none

/-- pdns_auth_zone.py lines 660-674 for a Boolean kind, whose default
is False: the or-coercion maps False and absence to False, so the
boolean target is preserved. -/
def legacyBoolNewval (v : Option Bool) : Bool :=
  match v with
  | some true => true
  | _ => false

/-
Zone module main: name resolution, the notify and retrieve gates, and
the exists and absent terminal states (zone.py lines 1289-1372,
pdns_auth_zone.py lines 1271-1326).
-/

/-- A zone as the remote server lists it: remote id, name and kind
(the fields the modelled paths consult). -/
structure RemoteZone where
  id : String
  name : String
  kind : String
deriving DecidableEq

/-- Modelled from the spec: the listZones remote operation with the
zone filter resolves a name by exact-match lookup (spec section 4.5). -/
def listZonesByName (zones : List RemoteZone) (zone : String) : List RemoteZone :=
  zones.filter (fun z => decide (z.name = zone))

/-- The remote zone operation issued by the notify and retrieve states
of zone main. -/
inductive ZoneStateCall where
  | notifyZone
  | axfrRetrieveZone
deriving DecidableEq

/-- zone.py lines 1351-1360, the state notify branch of the collection
module for an existing zone: fail_json unless the kind of the zone is
Master or Producer, otherwise issue notifyZone. -/
def collectionNotifyBranch (kind : String) : Except String ZoneStateCall :=
  if kind ∉ ["Master", "Producer"] then
    Except.error ("NOTIFY cannot be requested for zones of this kind: " ++ kind)
  else Except.ok ZoneStateCall.notifyZone

/-- zone.py lines 1363-1372, the state retrieve branch of the
collection module for an existing zone: fail_json unless the kind of
the zone is Slave or Consumer, otherwise issue axfrRetrieveZone. -/
def collectionRetrieveBranch (kind : String) : Except String ZoneStateCall :=
  if kind ∉ ["Slave", "Consumer"] then
    Except.error ("Retrieval cannot be requested for zones of this kind: " ++ kind)
  else Except.ok ZoneStateCall.axfrRetrieveZone

/-- pdns_auth_zone.py lines 1306-1314, the state notify branch of the
legacy flat module for an existing zone: fail_json only when the kind
of the zone is Native, otherwise issue notifyZone. -/
def legacyNotifyBranch (kind : String) : Except String ZoneStateCall :=
  if kind = "Native" then
    Except.error "NOTIFY cannot be requested for Native zones"
  else Except.ok ZoneStateCall.notifyZone

/-- pdns_auth_zone.py lines 1316-1326, the state retrieve branch of the
legacy flat module for an existing zone: fail_json unless the kind of
the zone is Slave, otherwise issue axfrRetrieveZone. -/
def legacyRetrieveBranch (kind : String) : Except String ZoneStateCall :=
  if kind ≠ "Slave" then
    Except.error "Retrieval can only be requested for Slave zones"
  else Except.ok ZoneStateCall.axfrRetrieveZone

/-- The result payload of the zone module as the modelled paths fill
it: the changed flag and the zone snapshot fields the claims concern
(result of key zone: name, the exists flag, and kind when the snapshot
was fetched). -/
structure ZoneModuleResult where
  changed : Bool
  zone_name : String
  zone_exists : Bool
  zone_kind : Option String
deriving DecidableEq

/-- zone.py main, lines 1289-1348, restricted to the states exists and
absent: resolve the zone name; when no zone matches, exit unchanged
with the exists-false stub snapshot; otherwise populate the snapshot
from the zone (build_zone_result, exists true), then for absent delete
the zone, mark changed and exit with that snapshot untouched.  The
returned pair is the final remote zone list and the result payload. -/
def zoneMainAbsentOrExists (zones : List RemoteZone) (state : String) (zone : String) :
    List RemoteZone × ZoneModuleResult :=
  match listZonesByName zones zone with
  | [] => (zones, { changed := false, zone_name := zone, zone_exists := false,
                    zone_kind := none })
  | z :: _ =>
    if state = "exists" then
      (zones, { changed := false, zone_name := z.name, zone_exists := true,
                zone_kind := some z.kind })
    else
      (zones.filter (fun w => decide (w.id ≠ z.id)),
       { changed := true, zone_name := z.name, zone_exists := true,
         zone_kind := some z.kind })

/-
Cryptokey module main, state exists (cryptokey.py lines 369-404).
-/

/-- A DNSSEC key as the remote server lists it: the remote id in its
string form (cryptokey.py compares str(key of id) against the
cryptokey_id parameter) plus the fields returned to the caller. -/
structure Cryptokey where
  id : String
  keytype : String
  active : Bool
  published : Bool
deriving DecidableEq

/-- The result payload of the cryptokey exists branch: the changed
flag, the exists flag, the single fetched key (none models the empty
initial dict) and the key listing. -/
structure CryptokeyExistsResult where
  changed : Bool
  keyExists : Bool
  cryptokey : Option Cryptokey
  cryptokeys : List Cryptokey
deriving DecidableEq

/-- cryptokey.py lines 394-404, the state exists branch, run against
the key listing of the zone.  getCryptokey is modelled at its
interface: the remote returns the key whose id matches, and answers an
unknown id with an HTTP error that api_exception_handler turns into
fail_json (the source comments that a nonexistent key id is handled by
the API error handler).  The exists flag is the truthiness test of the
result fields cryptokey or cryptokeys. -/
def cryptokeyExistsBranch (existing_zone_keys : List Cryptokey)
    (cryptokey_id : Option String) : Except String CryptokeyExistsResult :=
  match cryptokey_id with
  | some cid =>
    match existing_zone_keys.find? (fun k => decide (k.id = cid)) with
    | some k =>
      Except.ok { changed := false, keyExists := true, cryptokey := some k, cryptokeys := [] }
    | none =>
      Except.error "API operation getCryptokey returned an error"
  | none =>
    Except.ok { changed := false, keyExists := !existing_zone_keys.isEmpty,
                cryptokey := none, cryptokeys := existing_zone_keys }

/-
The remote call surface of APIZoneWrapper (api_wrapper.py lines 71-113)
and the calls the rrset module makes against it (rrset.py lines 878-879
and 1368-1369).
-/

/-- Whether a method defined on APIZoneWrapper accepts caller-supplied
keyword arguments: axfrRetrieveZone, deleteZone, listZone and
notifyZone take none beyond self, while createZone, listZones and
putZone declare a kwargs catch-all. -/
inductive KwargPolicy where
  | noKwargs
  | anyKwargs
deriving DecidableEq

/-- The methods APIZoneWrapper defines (api_wrapper.py lines 71-113),
with the keyword-argument policy of each; any other attribute lookup on
the wrapper fails. -/
def zoneWrapperMethod : String → Option KwargPolicy
  | "axfrRetrieveZone" => some KwargPolicy.noKwargs
  | "createZone" => some KwargPolicy.anyKwargs
  | "deleteZone" => some KwargPolicy.noKwargs
  | "listZone" => some KwargPolicy.noKwargs
  | "listZones" => some KwargPolicy.anyKwargs
  | "notifyZone" => some KwargPolicy.noKwargs
  | "putZone" => some KwargPolicy.anyKwargs
  | _ => none

/-- A Python runtime error raised by a dynamic call: the attribute does
not exist, or the callable rejects a keyword argument. -/
inductive PyCallError where
  | attributeError (method : String)
  | typeError (method : String) (kwarg : String)
deriving DecidableEq

/-- A dynamic method call on an APIZoneWrapper instance with the given
keyword-argument names: an AttributeError when the method is not
defined, a TypeError when a keyword argument is passed to a method
whose signature accepts none. -/
def callZoneWrapper (method : String) (kwargs : List String) : Except PyCallError Unit :=
  match zoneWrapperMethod method with
  | none => Except.error (PyCallError.attributeError method)
  | some KwargPolicy.noKwargs =>
    match kwargs with
    | [] => Except.ok ()
    | kw :: _ => Except.error (PyCallError.typeError method kw)
  | some KwargPolicy.anyKwargs => Except.ok ()

/-- How a run of rrset main ends, as far as its remote interface is
concerned: a clean fail_json, an uncaught Python runtime error, or
normal completion. -/
inductive RRsetRunEnd where
  | failJson (msg : String)
  | pyError (e : PyCallError)
  | completed
deriving DecidableEq

/-- rrset.py main, lines 1220-1234, on the way to any of its states:
resolve the zone name via listZones (a kwargs-accepting wrapper
method), fail_json when no zone matches, then fetch the RRsets through
get_rrsets, which calls listZone with the keyword argument rrsets
(rrset.py line 879).  The run ends at the first failing step. -/
def rrsetMainRemotePrefix (zones : List RemoteZone) (zone_name : String) : RRsetRunEnd :=
  match callZoneWrapper "listZones" ["zone"] with
  | Except.error e => RRsetRunEnd.pyError e
  | Except.ok _ =>
    match listZonesByName zones zone_name with
    | [] => RRsetRunEnd.failJson ("Failed to find zone named " ++ zone_name)
    | _ :: _ =>
      match callZoneWrapper "listZone" ["rrsets"] with
      | Except.error e => RRsetRunEnd.pyError e
      | Except.ok _ => RRsetRunEnd.completed

/-
Theorems.
-/

/-- C2: the remote-interface object handed to the rrset operation does
not support the calls the operation makes: patchZone is not a method of
APIZoneWrapper, and for every invocation whose zone resolution succeeds
the run ends in the TypeError raised by passing the keyword argument
rrsets to listZone, which accepts none, before any state is handled. -/
theorem rrset_remote_interface_mismatch (zones : List RemoteZone) (zone_name : String) :
    zoneWrapperMethod "patchZone" = none
    ∧ (listZonesByName zones zone_name ≠ [] →
        rrsetMainRemotePrefix zones zone_name
          = RRsetRunEnd.pyError (PyCallError.typeError "listZone" "rrsets")) := by
  refine ⟨rfl, fun h => ?_⟩
  unfold rrsetMainRemotePrefix
  cases hl : listZonesByName zones zone_name with
  | nil => exact absurd hl h
  | cons z rest => rfl

/-- Witness for C2 at a concrete one-zone remote state. -/
theorem rrset_remote_interface_mismatch_witness :
    rrsetMainRemotePrefix [⟨"z3", "d3.example.", "Native"⟩] "d3.example."
      = RRsetRunEnd.pyError (PyCallError.typeError "listZone" "rrsets") :=
  (rrset_remote_interface_mismatch [⟨"z3", "d3.example.", "Native"⟩] "d3.example.").2
    (by decide)

/-- Counterexample for C3: the lists a b and b a are permutations of
each other, yet the StringList update is not a no-op: it reports a
change and issues a modifyMetadata call. -/
theorem metadata_list_permutation_counterexample :
    List.Perm ["a", "b"] ["b", "a"]
    ∧ MetadataListValue.update "ALLOW-AXFR-FROM" ["a", "b"] ["b", "a"]
      = (true, [MetadataApiCall.modifyMetadata "ALLOW-AXFR-FROM" ["b", "a"]]) := by
  exact ⟨by decide, by decide⟩

/-- C3 (amended): StringList metadata values are compared by plain list
equality, order included: the update is a no-op exactly when the new
list equals the old one element for element, and a permutation of the
old value that is not equal to it triggers a modifyMetadata call
carrying the new list. -/
theorem metadata_list_update_plain_equality (api_kind : String) (oldval newval : List String) :
    (MetadataListValue.update api_kind oldval newval = (false, []) ↔ newval = oldval)
    ∧ (newval.Perm oldval → newval ≠ oldval →
        MetadataListValue.update api_kind oldval newval
          = (true, [MetadataApiCall.modifyMetadata api_kind newval])) := by
  constructor
  · unfold MetadataListValue.update
    by_cases h : newval = oldval
    · simp [h]
    · simp only [if_neg h]
      constructor
      · intro hc
        split at hc <;> simp at hc
      · intro hc
        exact absurd hc h
  · intro hperm hne
    have hnil : newval ≠ [] := by
      intro hn
      subst hn
      exact hne (List.Perm.nil_eq hperm)
    unfold MetadataListValue.update
    rw [if_neg hne, if_pos]
    simpa [List.length_eq_zero] using hnil

/-- Witness for C3 at concrete permuted lists. -/
theorem metadata_list_update_plain_equality_witness :
    MetadataListValue.update "ALSO-NOTIFY" ["x", "y"] ["y", "x"]
      = (true, [MetadataApiCall.modifyMetadata "ALSO-NOTIFY" ["y", "x"]]) :=
  (metadata_list_update_plain_equality "ALSO-NOTIFY" ["x", "y"] ["y", "x"]).2
    (by decide) (by decide)

/-- C4: in the collection zone module the Ternary and Boolean update
semantics are as claimed, but the legacy flat module coerces an
explicit false Ternary target to null through the or-default
expression of its updaters, so updating SLAVE-RENOTIFY from true to
false issues a deleteMetadata call there instead of the modify carrying
the zero encoding that the collection module issues. -/
theorem legacy_ternary_false_update_divergence :
    legacyTernaryNewval (some false) = none
    ∧ MetadataTernaryValue.update "SLAVE-RENOTIFY" (some true) (legacyTernaryNewval (some false))
      = (true, [MetadataApiCall.deleteMetadata "SLAVE-RENOTIFY"])
    ∧ MetadataTernaryValue.update "SLAVE-RENOTIFY" (some true) (some false)
      = (true, [MetadataApiCall.modifyMetadata "SLAVE-RENOTIFY" ["0"]])
    ∧ MetadataTernaryValue.update "SLAVE-RENOTIFY" (some true) none
      = (true, [MetadataApiCall.deleteMetadata "SLAVE-RENOTIFY"])
    ∧ MetadataBinaryValue.update "IXFR" true (legacyBoolNewval (some false))
      = (true, [MetadataApiCall.deleteMetadata "IXFR"]) := by
  decide

/-- Counterexample for C5: a Slave zone is outside the set Master and
Producer, yet the legacy flat module does not fail a notify request for
it: the branch issues the notifyZone remote call. -/
theorem legacy_notify_slave_counterexample :
    ("Slave" : String) ∉ ["Master", "Producer"]
    ∧ legacyNotifyBranch "Slave" = Except.ok ZoneStateCall.notifyZone := by
  exact ⟨by decide, by decide⟩

/-- C5 (amended): in the collection zone module a notify request issues
the remote call exactly when the kind of the zone is Master or
Producer, and a retrieve request exactly when it is Slave or Consumer,
failing fatally otherwise; in the legacy flat module notify fails only
for Native zones (so a Slave notify is issued) and retrieve succeeds
only for Slave zones. -/
theorem notify_retrieve_kind_gating (kind : String) :
    (collectionNotifyBranch kind = Except.ok ZoneStateCall.notifyZone
      ↔ kind ∈ ["Master", "Producer"])
    ∧ (collectionRetrieveBranch kind = Except.ok ZoneStateCall.axfrRetrieveZone
      ↔ kind ∈ ["Slave", "Consumer"])
    ∧ (legacyNotifyBranch kind = Except.ok ZoneStateCall.notifyZone ↔ kind ≠ "Native")
    ∧ (legacyRetrieveBranch kind = Except.ok ZoneStateCall.axfrRetrieveZone ↔ kind = "Slave") := by
  refine ⟨?_, ?_, ?_, ?_⟩
  · by_cases h : kind ∈ ["Master", "Producer"] <;>
      simp [collectionNotifyBranch, h]
  · by_cases h : kind ∈ ["Slave", "Consumer"] <;>
      simp [collectionRetrieveBranch, h]
  · by_cases h : kind = "Native" <;>
      simp [legacyNotifyBranch, h]
  · by_cases h : kind = "Slave" <;>
      simp [legacyRetrieveBranch, h]

/-- Counterexample for C9: deleting the only existing zone removes it
from the remote state, yet the returned snapshot is the pre-delete one:
it still reports the zone as existing. -/
theorem zone_delete_snapshot_counterexample :
    zoneMainAbsentOrExists [⟨"z1", "d1.example.", "Native"⟩] "absent" "d1.example."
      = ([], { changed := true, zone_name := "d1.example.", zone_exists := true,
               zone_kind := some "Native" }) := by
  decide

/-- C9 (amended): the result payload carries the changed flag and a
zone snapshot, but after a successful delete of an existing zone the
snapshot is the one fetched before the delete, reporting the zone as
still existing; the snapshot reports non-existence only when the zone
was already absent, in which case nothing changes. -/
theorem zone_delete_snapshot_amended (zones : List RemoteZone) (zone : String) :
    (listZonesByName zones zone = [] →
      zoneMainAbsentOrExists zones "absent" zone
        = (zones, { changed := false, zone_name := zone, zone_exists := false,
                    zone_kind := none }))
    ∧ (∀ z rest, listZonesByName zones zone = z :: rest →
        zoneMainAbsentOrExists zones "absent" zone
          = (zones.filter (fun w => decide (w.id ≠ z.id)),
             { changed := true, zone_name := z.name, zone_exists := true,
               zone_kind := some z.kind })) := by
  constructor
  · intro h
    unfold zoneMainAbsentOrExists
    rw [h]
  · intro z rest h
    unfold zoneMainAbsentOrExists
    rw [h]
    rfl

/-- Witness for C9 at a concrete one-zone remote state. -/
theorem zone_delete_snapshot_amended_witness :
    zoneMainAbsentOrExists [⟨"z2", "d2.example.", "Master"⟩] "absent" "d2.example."
      = ([], { changed := true, zone_name := "d2.example.", zone_exists := true,
               zone_kind := some "Master" }) := by
  have h := (zone_delete_snapshot_amended [⟨"z2", "d2.example.", "Master"⟩] "d2.example.").2
    ⟨"z2", "d2.example.", "Master"⟩ [] (by decide)
  simpa using h

/-- C10: a cryptokey existence check with a cryptokey_id matching no
key of the zone ends in the fatal error surfaced from the remote get
through the exception handler, never in a clean exists-false answer,
and a clean exists-false answer occurs exactly when no cryptokey_id is
given and the key listing of the zone is empty. -/
theorem cryptokey_exists_unknown_id_fatal :
    (∀ (keys : List Cryptokey) (cid : String), (∀ k ∈ keys, k.id ≠ cid) →
      ∃ msg, cryptokeyExistsBranch keys (some cid) = Except.error msg)
    ∧ (∀ (keys : List Cryptokey) (ocid : Option String) (r : CryptokeyExistsResult),
        cryptokeyExistsBranch keys ocid = Except.ok r →
        (r.keyExists = false ↔ ocid = none ∧ keys = [])) := by
  constructor
  · intro keys cid hnone
    have hfind : keys.find? (fun k => decide (k.id = cid)) = none := by
      rw [List.find?_eq_none]
      intro k hk
      simpa using hnone k hk
    refine ⟨"API operation getCryptokey returned an error", ?_⟩
    simp only [cryptokeyExistsBranch]
    rw [hfind]
  · intro keys ocid r hok
    cases ocid with
    | some cid =>
      simp only [cryptokeyExistsBranch] at hok
      cases hfind : keys.find? (fun k => decide (k.id = cid)) with
      | some k =>
        rw [hfind] at hok
        cases hok
        simp
      | none =>
        rw [hfind] at hok
        cases hok
    | none =>
      simp only [cryptokeyExistsBranch] at hok
      cases hok
      simp [List.isEmpty_iff]

/-- Witness for C10: a zone holding one key of id seven, queried for
id nine, ends in a fatal remote error. -/
theorem cryptokey_exists_unknown_id_fatal_witness :
    ∃ msg, cryptokeyExistsBranch [⟨"7", "zsk", true, true⟩] (some "9") = Except.error msg :=
  cryptokey_exists_unknown_id_fatal.1 [⟨"7", "zsk", true, true⟩] "9" (by decide)

/-- Every remote metadata call emitted by the set dispatch of a
registry entry is addressed to the api_kind of that entry. -/
theorem mem_dispatchSet_kind (e : MetadataEntry) (v : Option MetaValue) :
    ∀ c ∈ dispatchSet e v, c.kind = e.api_kind := by
  intro c hc
  cases hcls : e.cls <;>
    simp only [dispatchSet, hcls, MetadataBinaryValue.set, MetadataBinaryPresence.set,
      MetadataTernaryValue.set, MetadataListValue.set, MetadataStringValue.set] at hc <;>
    split at hc <;> simp_all [MetadataApiCall.kind]

/-- Every remote metadata call emitted by the update dispatch of a
registry entry is addressed to the api_kind of that entry. -/
theorem mem_dispatchUpdate_kind (e : MetadataEntry) (ov nv : Option MetaValue) :
    ∀ c ∈ (dispatchUpdate e ov nv).2, c.kind = e.api_kind := by
  intro c hc
  cases hcls : e.cls <;>
    simp only [dispatchUpdate, hcls, MetadataBinaryValue.update, MetadataBinaryPresence.update,
      MetadataTernaryValue.update, MetadataListValue.update, MetadataStringValue.update] at hc <;>
    split at hc <;> (try split at hc) <;> simp_all [MetadataApiCall.kind]

/-- Every zone_struct write emitted by the set dispatch of a
ZoneMetadata entry targets the zone_kind field of that entry. -/
theorem mem_zoneDispatchSet_field (e : ZoneMetadataEntry) (v : Option MetaValue) :
    ∀ w ∈ zoneDispatchSet e v, w.1 = e.zone_kind := by
  intro w hw
  cases hcls : e.cls <;> simp only [zoneDispatchSet, hcls] at hw <;>
    split at hw <;> simp_all

/-- Every zone_struct write emitted by the update dispatch of a
ZoneMetadata entry targets the zone_kind field of that entry. -/
theorem mem_zoneDispatchUpdate_field (e : ZoneMetadataEntry) (ov nv : Option MetaValue) :
    ∀ w ∈ zoneDispatchUpdate e ov nv, w.1 = e.zone_kind := by
  intro w hw
  cases hcls : e.cls <;> simp only [zoneDispatchUpdate, hcls] at hw <;>
    split at hw <;> (try split at hw) <;> simp_all

/-- Every setter the Metadata registry emits is for a registered,
mutable entry. -/
theorem Metadata.setters_not_immutable (user_meta : UserMeta) :
    ∀ s ∈ Metadata.setters user_meta, s.1 ∈ metadataRegistry ∧ s.1.immutable = false := by
  intro s hs
  simp only [Metadata.setters, List.mem_filterMap] at hs
  obtain ⟨mv, _, hf⟩ := hs
  split at hf
  next m heq =>
    split at hf
    next => cases hf
    next him =>
      cases hf
      simp only [Metadata.by_meta] at heq
      exact ⟨List.mem_of_find?_eq_some heq, by simpa using him⟩
  next => cases hf

/-- Every updater the Metadata registry emits is for a registered,
mutable entry. -/
theorem Metadata.updaters_not_immutable (old_user_meta new_user_meta : UserMeta) :
    ∀ u ∈ Metadata.updaters old_user_meta new_user_meta,
      u.1 ∈ metadataRegistry ∧ u.1.immutable = false := by
  intro u hu
  simp only [Metadata.updaters, List.mem_filterMap] at hu
  obtain ⟨v, hv, hf⟩ := hu
  by_cases him : v.immutable
  · rw [if_pos him] at hf; cases hf
  · rw [if_neg him] at hf
    cases hf
    exact ⟨hv, by simpa using him⟩

/-- Every setter the ZoneMetadata registry emits is for a registered,
mutable entry. -/
theorem zoneMeta_setters_not_immutable (user_meta : UserMeta) :
    ∀ s ∈ ZoneMetadata.setters user_meta,
      s.1 ∈ zoneMetadataRegistry ∧ s.1.immutable = false := by
  intro s hs
  simp only [ZoneMetadata.setters, List.mem_filterMap] at hs
  obtain ⟨mv, _, hf⟩ := hs
  split at hf
  next m heq =>
    split at hf
    next => cases hf
    next him =>
      cases hf
      simp only [ZoneMetadata.by_meta] at heq
      exact ⟨List.mem_of_find?_eq_some heq, by simpa using him⟩
  next => cases hf

/-- Every updater the ZoneMetadata registry emits is for a registered,
mutable entry. -/
theorem zoneMeta_updaters_not_immutable (old_user_meta new_user_meta : UserMeta) :
    ∀ u ∈ ZoneMetadata.updaters old_user_meta new_user_meta,
      u.1 ∈ zoneMetadataRegistry ∧ u.1.immutable = false := by
  intro u hu
  simp only [ZoneMetadata.updaters, List.mem_filterMap] at hu
  obtain ⟨v, hv, hf⟩ := hu
  by_cases him : v.immutable
  · rw [if_pos him] at hf; cases hf
  · rw [if_neg him] at hf
    cases hf
    exact ⟨hv, by simpa using him⟩

/-- A mutable entry of the Metadata registry is never one of the two
immutable kinds. -/
theorem metadataRegistry_mutable_not_protected :
    ∀ e ∈ metadataRegistry, e.immutable = false →
      e.api_kind ≠ "LUA-AXFR-SCRIPT" ∧ e.api_kind ≠ "PRESIGNED" := by
  decide

/-- A mutable entry of the ZoneMetadata registry never writes the
presigned zone field. -/
theorem zoneMetadataRegistry_mutable_not_presigned :
    ∀ e ∈ zoneMetadataRegistry, e.immutable = false → e.zone_kind ≠ "presigned" := by
  decide

/-- C8: for every user-supplied metadata mapping and every pair of old
and new metadata states, the setter and updater lists contain no
callable for an immutable entry, and consequently no remote modify or
delete call is ever addressed to the kinds LUA-AXFR-SCRIPT or
PRESIGNED, and no zone_struct write ever targets the presigned field,
whatever the desired and current values are. -/
theorem immutable_metadata_never_mutated (user_meta old_user_meta new_user_meta : UserMeta) :
    ((Metadata.setters user_meta).all (fun s => !s.1.immutable) = true)
    ∧ ((Metadata.updaters old_user_meta new_user_meta).all (fun u => !u.1.immutable) = true)
    ∧ ((ZoneMetadata.setters user_meta).all (fun s => !s.1.immutable) = true)
    ∧ ((ZoneMetadata.updaters old_user_meta new_user_meta).all
        (fun u => !u.1.immutable) = true)
    ∧ ((metadataSetterCalls user_meta).all
        (fun c => decide (c.kind ≠ "LUA-AXFR-SCRIPT" ∧ c.kind ≠ "PRESIGNED")) = true)
    ∧ ((metadataUpdaterCalls old_user_meta new_user_meta).all
        (fun c => decide (c.kind ≠ "LUA-AXFR-SCRIPT" ∧ c.kind ≠ "PRESIGNED")) = true)
    ∧ ((zoneMetadataSetterWrites user_meta).all (fun w => decide (w.1 ≠ "presigned")) = true)
    ∧ ((zoneMetadataUpdaterWrites old_user_meta new_user_meta).all
        (fun w => decide (w.1 ≠ "presigned")) = true) := by
  refine ⟨?_, ?_, ?_, ?_, ?_, ?_, ?_, ?_⟩
  · rw [List.all_eq_true]
    intro s hs
    simpa using (Metadata.setters_not_immutable user_meta s hs).2
  · rw [List.all_eq_true]
    intro u hu
    simpa using (Metadata.updaters_not_immutable old_user_meta new_user_meta u hu).2
  · rw [List.all_eq_true]
    intro s hs
    simpa using (zoneMeta_setters_not_immutable user_meta s hs).2
  · rw [List.all_eq_true]
    intro u hu
    simpa using (zoneMeta_updaters_not_immutable old_user_meta new_user_meta u hu).2
  · rw [List.all_eq_true]
    intro c hc
    simp only [metadataSetterCalls, List.mem_flatMap] at hc
    obtain ⟨s, hs, hcs⟩ := hc
    have hk := mem_dispatchSet_kind s.1 s.2 c hcs
    have hm := Metadata.setters_not_immutable user_meta s hs
    rw [hk]
    simpa using metadataRegistry_mutable_not_protected s.1 hm.1 hm.2
  · rw [List.all_eq_true]
    intro c hc
    simp only [metadataUpdaterCalls, List.mem_flatMap] at hc
    obtain ⟨u, hu, hcu⟩ := hc
    have hk := mem_dispatchUpdate_kind u.1 u.2.1 u.2.2 c hcu
    have hm := Metadata.updaters_not_immutable old_user_meta new_user_meta u hu
    rw [hk]
    simpa using metadataRegistry_mutable_not_protected u.1 hm.1 hm.2
  · rw [List.all_eq_true]
    intro w hw
    simp only [zoneMetadataSetterWrites, List.mem_flatMap] at hw
    obtain ⟨s, hs, hws⟩ := hw
    have hk := mem_zoneDispatchSet_field s.1 s.2 w hws
    have hm := zoneMeta_setters_not_immutable user_meta s hs
    rw [hk]
    simpa using zoneMetadataRegistry_mutable_not_presigned s.1 hm.1 hm.2
  · rw [List.all_eq_true]
    intro w hw
    simp only [zoneMetadataUpdaterWrites, List.mem_flatMap] at hw
    obtain ⟨u, hu, hwu⟩ := hw
    have hk := mem_zoneDispatchUpdate_field u.1 u.2.1 u.2.2 w hwu
    have hm := zoneMeta_updaters_not_immutable old_user_meta new_user_meta u hu
    rw [hk]
    simpa using zoneMetadataRegistry_mutable_not_presigned u.1 hm.1 hm.2

/-
Supporting lemmas about the RRset differ and the modelled patch
application.
-/

/-- A search for a key finds nothing among the elements filtered to not
match it. -/
theorem find?_filter_not_same (l : List ZoneRRset) (p : ZoneRRset → Bool) :
    (l.filter (fun r => !p r)).find? p = none := by
  rw [List.find?_eq_none]
  intro x hx
  simpa using List.of_mem_filter hx

/-- Filtering out the matches of a key that finds nothing leaves the
list unchanged. -/
theorem filter_not_of_find?_none (l : List ZoneRRset) (p : ZoneRRset → Bool)
    (h : l.find? p = none) : l.filter (fun r => !p r) = l := by
  rw [List.filter_eq_self]
  intro a ha
  simpa using List.find?_eq_none.mp h a ha

/-- Filtering out the matches of a key twice is the same as once. -/
theorem filter_not_idem (l : List ZoneRRset) (p : ZoneRRset → Bool) :
    (l.filter (fun r => !p r)).filter (fun r => !p r) = l.filter (fun r => !p r) := by
  rw [List.filter_eq_self]
  intro a ha
  exact (List.mem_filter.mp ha).2

/-- Filtering a list by non-membership in a superset of its elements
gives the empty list. -/
theorem filter_not_mem_eq_nil (l sup : List RRecord) (h : ∀ r ∈ l, r ∈ sup) :
    l.filter (fun r => decide (r ∉ sup)) = [] := by
  rw [List.filter_eq_nil_iff]
  intro a ha
  simpa using h a ha

/-- Filtering a list by non-membership in a list disjoint from it
leaves it unchanged. -/
theorem filter_not_mem_eq_self (l excl : List RRecord) (h : ∀ r ∈ l, r ∉ excl) :
    l.filter (fun r => decide (r ∉ excl)) = l := by
  rw [List.filter_eq_self]
  intro a ha
  simpa using h a ha

/-- Applying a REPLACE patch entry with concrete fields filters the key
out and appends the replacement RRset. -/
theorem applyPatchEntry_replace_def (zrs : List ZoneRRset) (nm : String) (t : String)
    (ttl : Nat) (recs : List RRecord) :
    applyPatchEntry zrs ⟨nm, some t, Changetype.REPLACE, some ttl, some recs⟩
      = zrs.filter (fun r => !keyMatches nm (some t) r) ++ [⟨nm, t, ttl, recs⟩] :=
  rfl

/-- Applying a DELETE patch entry filters the key out. -/
theorem applyPatchEntry_delete_def (zrs : List ZoneRRset) (nm : String)
    (ty : Option String) (ttl : Option Nat) (recs : Option (List RRecord)) :
    applyPatchEntry zrs ⟨nm, ty, Changetype.DELETE, ttl, recs⟩
      = zrs.filter (fun r => !keyMatches nm ty r) :=
  rfl

/-- Applying a one-entry patch is applying that entry. -/
theorem applyPatches_single (zrs : List ZoneRRset) (p : PatchEntry) :
    applyPatches zrs [p] = applyPatchEntry zrs p :=
  rfl

/-- After the key of a desired RRset is filtered out and a replacement
RRset with that key appended, the lookup finds the replacement. -/
theorem findExisting_append_new (zrs : List ZoneRRset) (d : DesiredRRset) (t : String)
    (ttl : Nat) (recs : List RRecord) (hty : d.type = some t) :
    findExisting (zrs.filter (fun r => !keyMatches d.name (some t) r)
        ++ [⟨d.name, t, ttl, recs⟩]) d
      = some ⟨d.name, t, ttl, recs⟩ := by
  unfold findExisting
  rw [hty, List.find?_append, find?_filter_not_same]
  simp [List.find?, keyMatches]

/-- After the key of a desired RRset is filtered out, the lookup finds
nothing. -/
theorem findExisting_filter_out (zrs : List ZoneRRset) (d : DesiredRRset) :
    findExisting (zrs.filter (fun r => !keyMatches d.name d.type r)) d = none :=
  find?_filter_not_same zrs (keyMatches d.name d.type)

/-- A found existing RRset has the name of the desired one, and the
desired type is its type. -/
theorem findExisting_some_key (zrs : List ZoneRRset) (d : DesiredRRset) (ex : ZoneRRset)
    (h : findExisting zrs d = some ex) : ex.name = d.name ∧ d.type = some ex.type := by
  have := List.find?_some h
  simp only [keyMatches, decide_eq_true_eq] at this
  exact ⟨this.1, this.2.symm⟩

/-- The differ on an absent key with REPLACE intent and a present type
emits the desired RRset verbatim. -/
theorem processRRset_find_none_replace (zrs : List ZoneRRset) (d : DesiredRRset) (t : String)
    (hfind : findExisting zrs d = none) (hct : d.changetype = Changetype.REPLACE)
    (hty : d.type = some t) :
    processRRset zrs d
      = Except.ok [⟨d.name, d.type, Changetype.REPLACE, some d.ttl, some d.records⟩] := by
  simp [processRRset, hfind, hct, hty]

/-- The differ with keep false and REPLACE intent and a present type
emits the desired RRset verbatim, whatever the existing state is. -/
theorem processRRset_no_keep_replace (zrs : List ZoneRRset) (d : DesiredRRset) (t : String)
    (hkeep : d.keep = false) (hct : d.changetype = Changetype.REPLACE)
    (hty : d.type = some t) :
    processRRset zrs d
      = Except.ok [⟨d.name, d.type, Changetype.REPLACE, some d.ttl, some d.records⟩] := by
  simp [processRRset, hkeep, hct, hty]

/-- The differ with keep false and DELETE intent on a present key emits
the desired RRset verbatim with the DELETE changetype. -/
theorem processRRset_no_keep_delete (zrs : List ZoneRRset) (d : DesiredRRset) (ex : ZoneRRset)
    (hfind : findExisting zrs d = some ex) (hkeep : d.keep = false)
    (hct : d.changetype = Changetype.DELETE) :
    processRRset zrs d
      = Except.ok [⟨d.name, d.type, Changetype.DELETE, some d.ttl, some d.records⟩] := by
  simp [processRRset, hfind, hkeep, hct]

/-- The differ with DELETE intent on an absent key fails. -/
theorem processRRset_find_none_delete (zrs : List ZoneRRset) (d : DesiredRRset)
    (hfind : findExisting zrs d = none) (hct : d.changetype = Changetype.DELETE) :
    processRRset zrs d
      = Except.error ("No matching RRset found for name: " ++ d.name) := by
  simp [processRRset, hfind, hct]

/-- The differ with keep true on a present key with exactly matching
records: a slim whole-RRset delete for DELETE intent, nothing for
REPLACE intent. -/
theorem processRRset_keep_eq (zrs : List ZoneRRset) (d : DesiredRRset) (ex : ZoneRRset)
    (hfind : findExisting zrs d = some ex) (hkeep : d.keep = true)
    (heq : d.records = ex.records) :
    (d.changetype = Changetype.DELETE →
      processRRset zrs d = Except.ok [⟨d.name, d.type, Changetype.DELETE, none, none⟩])
    ∧ (d.changetype = Changetype.REPLACE → processRRset zrs d = Except.ok []) := by
  constructor <;> intro hct <;> simp [processRRset, hfind, hkeep, hct, heq]

/-- The differ with keep true, REPLACE intent and differing records
computes the union merge and emits it exactly when it differs from the
existing records. -/
theorem processRRset_keep_replace_ne (zrs : List ZoneRRset) (d : DesiredRRset) (ex : ZoneRRset)
    (hfind : findExisting zrs d = some ex) (hkeep : d.keep = true)
    (hct : d.changetype = Changetype.REPLACE) (hne : d.records ≠ ex.records) :
    processRRset zrs d
      = (if ex.records ++ d.records.filter (fun r => decide (r ∉ ex.records)) = ex.records
         then Except.ok []
         else Except.ok [⟨d.name, d.type, Changetype.REPLACE, some d.ttl,
           some (ex.records ++ d.records.filter (fun r => decide (r ∉ ex.records)))⟩]) := by
  simp [processRRset, hfind, hkeep, hct, hne]

/-- The differ with keep true, DELETE intent and differing records
computes the difference and emits a REPLACE exactly when it differs
from the existing records. -/
theorem processRRset_keep_delete_ne (zrs : List ZoneRRset) (d : DesiredRRset) (ex : ZoneRRset)
    (hfind : findExisting zrs d = some ex) (hkeep : d.keep = true)
    (hct : d.changetype = Changetype.DELETE) (hne : d.records ≠ ex.records) :
    processRRset zrs d
      = (if ex.records.filter (fun r => decide (r ∉ d.records)) = ex.records
         then Except.ok []
         else Except.ok [⟨d.name, d.type, Changetype.REPLACE, some d.ttl,
           some (ex.records.filter (fun r => decide (r ∉ d.records)))⟩]) := by
  simp [processRRset, hfind, hkeep, hct, hne]

/-- A one-element desired list produces exactly the entries of its
single RRset. -/
theorem rrsetsPatch_single (zrs : List ZoneRRset) (d : DesiredRRset) (ps : List PatchEntry)
    (h : processRRset zrs d = Except.ok ps) : rrsetsPatch zrs [d] = Except.ok ps := by
  simp [rrsetsPatch, h]

/-- A one-element desired list propagates the error of its single
RRset. -/
theorem rrsetsPatch_single_err (zrs : List ZoneRRset) (d : DesiredRRset) (e : String)
    (h : processRRset zrs d = Except.error e) : rrsetsPatch zrs [d] = Except.error e := by
  simp [rrsetsPatch, h]

/-- An empty patch leaves the state untouched and reports unchanged. -/
theorem rrsetApplyStep_of_nil (zrs : List ZoneRRset) (desired : List DesiredRRset)
    (h : rrsetsPatch zrs desired = Except.ok []) :
    rrsetApplyStep zrs desired = Except.ok (zrs, false) := by
  simp [rrsetApplyStep, h]

/-- A non-empty patch is applied and reported as a change. -/
theorem rrsetApplyStep_of_cons (zrs : List ZoneRRset) (desired : List DesiredRRset)
    (p : PatchEntry) (ps : List PatchEntry)
    (h : rrsetsPatch zrs desired = Except.ok (p :: ps)) :
    rrsetApplyStep zrs desired = Except.ok (applyPatches zrs (p :: ps), true) := by
  simp [rrsetApplyStep, h]

/-- A failing diff propagates its fail_json error through the step. -/
theorem rrsetApplyStep_of_err (zrs : List ZoneRRset) (desired : List DesiredRRset) (e : String)
    (h : rrsetsPatch zrs desired = Except.error e) :
    rrsetApplyStep zrs desired = Except.error e := by
  simp [rrsetApplyStep, h]

/-- The differ with keep true and REPLACE intent emits nothing when
every desired record is already present in the existing RRset. -/
theorem processRRset_keep_replace_subset (zrs : List ZoneRRset) (d : DesiredRRset)
    (ex : ZoneRRset) (hfind : findExisting zrs d = some ex) (hkeep : d.keep = true)
    (hct : d.changetype = Changetype.REPLACE) (hsub : ∀ r ∈ d.records, r ∈ ex.records) :
    processRRset zrs d = Except.ok [] := by
  by_cases heq : d.records = ex.records
  · exact (processRRset_keep_eq zrs d ex hfind hkeep heq).2 hct
  · have hf := filter_not_mem_eq_nil d.records ex.records hsub
    have h := processRRset_keep_replace_ne zrs d ex hfind hkeep hct heq
    rw [hf, List.append_nil, if_pos rfl] at h
    exact h

/-- The differ with keep true and DELETE intent emits nothing when the
existing records are disjoint from the non-empty desired records. -/
theorem processRRset_keep_delete_noop (zrs : List ZoneRRset) (d : DesiredRRset)
    (ex : ZoneRRset) (hfind : findExisting zrs d = some ex) (hkeep : d.keep = true)
    (hct : d.changetype = Changetype.DELETE)
    (hdis : ∀ r ∈ ex.records, r ∉ d.records) (hdne : d.records ≠ []) :
    processRRset zrs d = Except.ok [] := by
  have hneq : d.records ≠ ex.records := by
    intro h
    obtain ⟨r, hr⟩ := List.exists_mem_of_ne_nil d.records hdne
    exact hdis r (h ▸ hr) hr
  have hf := filter_not_mem_eq_self ex.records d.records hdis
  have h := processRRset_keep_delete_ne zrs d ex hfind hkeep hct hneq
  rw [hf, if_pos rfl] at h
  exact h

/-- Applying the same concrete REPLACE entry twice gives the same state
as applying it once. -/
theorem applyPatchEntry_replace_idem (zrs : List ZoneRRset) (nm t : String) (ttl : Nat)
    (recs : List RRecord) :
    applyPatchEntry (applyPatchEntry zrs ⟨nm, some t, Changetype.REPLACE, some ttl, some recs⟩)
        ⟨nm, some t, Changetype.REPLACE, some ttl, some recs⟩
      = applyPatchEntry zrs ⟨nm, some t, Changetype.REPLACE, some ttl, some recs⟩ := by
  simp only [applyPatchEntry_replace_def]
  rw [List.filter_append, filter_not_idem]
  have h : ([⟨nm, t, ttl, recs⟩] : List ZoneRRset).filter
      (fun r => !keyMatches nm (some t) r) = [] := by
    simp [keyMatches]
  rw [h, List.append_nil]

/-- Inversion of a successful reconciliation step: the patch computed,
and the two ways the final state and changed flag arise from it. -/
theorem rrsetApplyStep_ok_inv (zrs : List ZoneRRset) (desired : List DesiredRRset)
    (zrs2 : List ZoneRRset) (c : Bool)
    (h : rrsetApplyStep zrs desired = Except.ok (zrs2, c)) :
    ∃ ps, rrsetsPatch zrs desired = Except.ok ps
      ∧ ((ps = [] ∧ zrs2 = zrs ∧ c = false)
        ∨ (ps ≠ [] ∧ zrs2 = applyPatches zrs ps ∧ c = true)) := by
  unfold rrsetApplyStep at h
  split at h
  next e heq => cases h
  next ps heq =>
    refine ⟨ps, heq, ?_⟩
    by_cases hps : ps = []
    · rw [if_pos hps] at h
      cases h
      exact Or.inl ⟨hps, rfl, rfl⟩
    · rw [if_neg hps] at h
      cases h
      exact Or.inr ⟨hps, rfl, rfl⟩

/-- C7: when keep is true and the desired records exactly equal the
existing ones, DELETE intent emits exactly one whole-RRset patch entry
of changetype DELETE carrying neither ttl nor replacement records,
while REPLACE intent emits nothing. -/
theorem keep_delete_exact_match (zrs : List ZoneRRset) (d : DesiredRRset) (ex : ZoneRRset)
    (hfind : findExisting zrs d = some ex) (hkeep : d.keep = true)
    (heq : d.records = ex.records) :
    (d.changetype = Changetype.DELETE →
      rrsetsPatch zrs [d] = Except.ok [⟨d.name, d.type, Changetype.DELETE, none, none⟩])
    ∧ (d.changetype = Changetype.REPLACE → rrsetsPatch zrs [d] = Except.ok []) := by
  have h := processRRset_keep_eq zrs d ex hfind hkeep heq
  exact ⟨fun hct => rrsetsPatch_single zrs d _ (h.1 hct),
    fun hct => rrsetsPatch_single zrs d _ (h.2 hct)⟩

/-- Witness for C7: one existing RRset equal to the desired records,
DELETE intent with keep true, yields exactly the slim whole-RRset
delete. -/
theorem keep_delete_exact_match_witness :
    rrsetsPatch [⟨"w.example.", "A", 300, [⟨"9.9.9.9", false⟩]⟩]
        [⟨"w.example.", some "A", 300, true, Changetype.DELETE, [⟨"9.9.9.9", false⟩]⟩]
      = Except.ok [⟨"w.example.", some "A", Changetype.DELETE, none, none⟩] :=
  (keep_delete_exact_match [⟨"w.example.", "A", 300, [⟨"9.9.9.9", false⟩]⟩]
    ⟨"w.example.", some "A", 300, true, Changetype.DELETE, [⟨"9.9.9.9", false⟩]⟩
    ⟨"w.example.", "A", 300, [⟨"9.9.9.9", false⟩]⟩
    (by decide) (by decide) (by decide)).1 (by decide)

/-- Counterexample for C6: the desired records are a strict subset of
the existing ones, hence not exactly equal, yet no patch entry at all
is emitted, against the claim that exactly one REPLACE entry is. -/
theorem keep_replace_subset_counterexample :
    (([⟨"1.1.1.1", false⟩] : List RRecord) ≠ [⟨"1.1.1.1", false⟩, ⟨"2.2.2.2", false⟩])
    ∧ findExisting [⟨"d1.example.", "A", 3600, [⟨"1.1.1.1", false⟩, ⟨"2.2.2.2", false⟩]⟩]
        ⟨"d1.example.", some "A", 3600, true, Changetype.REPLACE, [⟨"1.1.1.1", false⟩]⟩
      = some ⟨"d1.example.", "A", 3600, [⟨"1.1.1.1", false⟩, ⟨"2.2.2.2", false⟩]⟩
    ∧ rrsetsPatch [⟨"d1.example.", "A", 3600, [⟨"1.1.1.1", false⟩, ⟨"2.2.2.2", false⟩]⟩]
        [⟨"d1.example.", some "A", 3600, true, Changetype.REPLACE, [⟨"1.1.1.1", false⟩]⟩]
      = Except.ok [] := by
  decide

/-- C6 (amended): with keep true, REPLACE intent and records not
exactly equal to the existing ones, the merge is the existing records
followed in order by the desired records not already present, with
duplicate detection by full-field equality; exactly one REPLACE patch
entry carrying the merged list is emitted when the merge differs from
the existing records, which happens exactly when some desired record
is not already present, and nothing is emitted otherwise. -/
theorem keep_replace_union_amended (zrs : List ZoneRRset) (d : DesiredRRset) (ex : ZoneRRset)
    (hfind : findExisting zrs d = some ex) (hkeep : d.keep = true)
    (hct : d.changetype = Changetype.REPLACE) (hne : d.records ≠ ex.records) :
    (ex.records ++ d.records.filter (fun r => decide (r ∉ ex.records)) = ex.records
      ↔ ∀ r ∈ d.records, r ∈ ex.records)
    ∧ rrsetsPatch zrs [d]
      = (if ex.records ++ d.records.filter (fun r => decide (r ∉ ex.records)) = ex.records
         then Except.ok []
         else Except.ok [⟨d.name, d.type, Changetype.REPLACE, some d.ttl,
           some (ex.records ++ d.records.filter (fun r => decide (r ∉ ex.records)))⟩]) := by
  constructor
  · rw [List.append_right_eq_self, List.filter_eq_nil_iff]
    simp
  · have h := processRRset_keep_replace_ne zrs d ex hfind hkeep hct hne
    by_cases hm : ex.records ++ d.records.filter (fun r => decide (r ∉ ex.records)) = ex.records
    · rw [if_pos hm] at h ⊢
      exact rrsetsPatch_single zrs d _ h
    · rw [if_neg hm] at h ⊢
      exact rrsetsPatch_single zrs d _ h

/-- Witness for C6 at the example of the specification: existing one-one
record, desired two-two record, keep true, gives one REPLACE carrying
both records in order. -/
theorem keep_replace_union_amended_witness :
    rrsetsPatch [⟨"u.example.", "A", 60, [⟨"1.1.1.1", false⟩]⟩]
        [⟨"u.example.", some "A", 60, true, Changetype.REPLACE, [⟨"2.2.2.2", false⟩]⟩]
      = Except.ok [⟨"u.example.", some "A", Changetype.REPLACE, some 60,
          some [⟨"1.1.1.1", false⟩, ⟨"2.2.2.2", false⟩]⟩] := by
  have h := (keep_replace_union_amended [⟨"u.example.", "A", 60, [⟨"1.1.1.1", false⟩]⟩]
    ⟨"u.example.", some "A", 60, true, Changetype.REPLACE, [⟨"2.2.2.2", false⟩]⟩
    ⟨"u.example.", "A", 60, [⟨"1.1.1.1", false⟩]⟩
    (by decide) (by decide) (by decide) (by decide)).2
  rw [if_neg (by decide)] at h
  exact h.trans (by decide)

/-- Counterexample for C1: with keep false and desired records exactly
equal to the already-existing RRset, the computed patch is the verbatim
REPLACE entry, not empty, and the step reports changed true while the
final remote state is identical to the initial one; the second
application is this very computation on that identical state, so it
also reports changed true and issues the mutating patch call. -/
theorem rrset_idempotence_counterexample :
    rrsetsPatch [⟨"d1.example.", "A", 3600, [⟨"1.1.1.1", false⟩]⟩]
        [⟨"d1.example.", some "A", 3600, false, Changetype.REPLACE, [⟨"1.1.1.1", false⟩]⟩]
      = Except.ok [⟨"d1.example.", some "A", Changetype.REPLACE, some 3600,
          some [⟨"1.1.1.1", false⟩]⟩]
    ∧ rrsetApplyStep [⟨"d1.example.", "A", 3600, [⟨"1.1.1.1", false⟩]⟩]
        [⟨"d1.example.", some "A", 3600, false, Changetype.REPLACE, [⟨"1.1.1.1", false⟩]⟩]
      = Except.ok ([⟨"d1.example.", "A", 3600, [⟨"1.1.1.1", false⟩]⟩], true) := by
  decide

/-- C1 (amended): re-running the rrset reconciler is idempotent only in
part.  For a single desired RRset: with keep true and REPLACE intent a
second application computes an empty patch, issues no mutating call and
reports changed false; with keep false and REPLACE intent every
application, the second included, emits the desired RRset verbatim and
reports changed true, the remote state staying fixed after the first;
with keep false and DELETE intent the second application fails fatally
because the RRset no longer exists; with keep true and DELETE intent
the second application either computes an empty patch and reports
changed false, or fails fatally when the first application removed the
whole RRset. -/
theorem rrset_reapply_amended (zrs : List ZoneRRset) (d : DesiredRRset) :
    (∀ zrs2 c, d.keep = true → d.changetype = Changetype.REPLACE → d.type.isSome = true →
      rrsetApplyStep zrs [d] = Except.ok (zrs2, c) →
      rrsetApplyStep zrs2 [d] = Except.ok (zrs2, false))
    ∧ (∀ zrs2 c, d.keep = false → d.changetype = Changetype.REPLACE → d.type.isSome = true →
      rrsetApplyStep zrs [d] = Except.ok (zrs2, c) →
      c = true ∧ rrsetApplyStep zrs2 [d] = Except.ok (zrs2, true))
    ∧ (∀ zrs2 c, d.keep = false → d.changetype = Changetype.DELETE →
      rrsetApplyStep zrs [d] = Except.ok (zrs2, c) →
      rrsetApplyStep zrs2 [d]
        = Except.error ("No matching RRset found for name: " ++ d.name))
    ∧ (∀ zrs2 c, d.keep = true → d.changetype = Changetype.DELETE →
      rrsetApplyStep zrs [d] = Except.ok (zrs2, c) →
      (rrsetApplyStep zrs2 [d] = Except.ok (zrs2, false)
        ∨ rrsetApplyStep zrs2 [d]
          = Except.error ("No matching RRset found for name: " ++ d.name))) := by
  refine ⟨?_, ?_, ?_, ?_⟩
  · -- keep true, REPLACE: the second application computes an empty patch
    intro zrs2 c hkeep hct hty hstep
    obtain ⟨t, ht⟩ := Option.isSome_iff_exists.mp hty
    obtain ⟨ps, hp, hcase⟩ := rrsetApplyStep_ok_inv zrs [d] zrs2 c hstep
    cases hfind : findExisting zrs d with
    | none =>
      have hpr := processRRset_find_none_replace zrs d t hfind hct ht
      have hp2 := rrsetsPatch_single zrs d _ hpr
      rw [hp] at hp2
      have hps := Except.ok.inj hp2
      rcases hcase with ⟨hnil, _, _⟩ | ⟨_, hz2, _⟩
      · rw [hps] at hnil
        simp at hnil
      · subst hz2
        rw [hps]
        have hfix : findExisting (applyPatches zrs
            [⟨d.name, d.type, Changetype.REPLACE, some d.ttl, some d.records⟩]) d
            = some ⟨d.name, t, d.ttl, d.records⟩ := by
          rw [applyPatches_single, ht, applyPatchEntry_replace_def]
          exact findExisting_append_new zrs d t d.ttl d.records ht
        have hpr2 := (processRRset_keep_eq _ d _ hfix hkeep rfl).2 hct
        exact rrsetApplyStep_of_nil _ _ (rrsetsPatch_single _ d _ hpr2)
    | some ex =>
      have hkey := findExisting_some_key zrs d ex hfind
      by_cases heq : d.records = ex.records
      · have hpr := (processRRset_keep_eq zrs d ex hfind hkeep heq).2 hct
        have hp2 := rrsetsPatch_single zrs d _ hpr
        rw [hp] at hp2
        have hps := Except.ok.inj hp2
        rcases hcase with ⟨_, hz2, _⟩ | ⟨hne, _, _⟩
        · subst hz2
          rw [hps] at hp
          exact rrsetApplyStep_of_nil _ _ hp
        · exact absurd hps hne
      · have hpr := processRRset_keep_replace_ne zrs d ex hfind hkeep hct heq
        by_cases hm : ex.records ++ d.records.filter (fun r => decide (r ∉ ex.records))
            = ex.records
        · rw [if_pos hm] at hpr
          have hp2 := rrsetsPatch_single zrs d _ hpr
          rw [hp] at hp2
          have hps := Except.ok.inj hp2
          rcases hcase with ⟨_, hz2, _⟩ | ⟨hne, _, _⟩
          · subst hz2
            rw [hps] at hp
            exact rrsetApplyStep_of_nil _ _ hp
          · exact absurd hps hne
        · rw [if_neg hm] at hpr
          have hp2 := rrsetsPatch_single zrs d _ hpr
          rw [hp] at hp2
          have hps := Except.ok.inj hp2
          rcases hcase with ⟨hnil, _, _⟩ | ⟨_, hz2, _⟩
          · rw [hps] at hnil
            simp at hnil
          · subst hz2
            rw [hps]
            have hfix : findExisting (applyPatches zrs
                [⟨d.name, d.type, Changetype.REPLACE, some d.ttl,
                  some (ex.records ++ d.records.filter (fun r => decide (r ∉ ex.records)))⟩]) d
                = some ⟨d.name, ex.type, d.ttl,
                    ex.records ++ d.records.filter (fun r => decide (r ∉ ex.records))⟩ := by
              rw [applyPatches_single, hkey.2, applyPatchEntry_replace_def]
              exact findExisting_append_new zrs d ex.type d.ttl _ hkey.2
            have hsub : ∀ r ∈ d.records,
                r ∈ ex.records ++ d.records.filter (fun s => decide (s ∉ ex.records)) := by
              intro r hr
              by_cases hmem : r ∈ ex.records
              · exact List.mem_append_left _ hmem
              · refine List.mem_append_right _ (List.mem_filter.mpr ⟨hr, ?_⟩)
                simpa using hmem
            have hpr2 := processRRset_keep_replace_subset _ d _ hfix hkeep hct hsub
            exact rrsetApplyStep_of_nil _ _ (rrsetsPatch_single _ d _ hpr2)
  · -- keep false, REPLACE: every application emits and reports a change
    intro zrs2 c hkeep hct hty hstep
    obtain ⟨t, ht⟩ := Option.isSome_iff_exists.mp hty
    have hpr := processRRset_no_keep_replace zrs d t hkeep hct ht
    obtain ⟨ps, hp, hcase⟩ := rrsetApplyStep_ok_inv zrs [d] zrs2 c hstep
    have hp2 := rrsetsPatch_single zrs d _ hpr
    rw [hp] at hp2
    have hps := Except.ok.inj hp2
    rcases hcase with ⟨hnil, _, _⟩ | ⟨_, hz2, hc⟩
    · rw [hps] at hnil
      simp at hnil
    · subst hz2
      refine ⟨hc, ?_⟩
      have hpr2 := processRRset_no_keep_replace (applyPatches zrs ps) d t hkeep hct ht
      have hstep2 := rrsetApplyStep_of_cons (applyPatches zrs ps) [d] _ []
        (rrsetsPatch_single _ d _ hpr2)
      rw [hstep2, hps]
      have hidem : applyPatches (applyPatches zrs
          [⟨d.name, d.type, Changetype.REPLACE, some d.ttl, some d.records⟩])
          [⟨d.name, d.type, Changetype.REPLACE, some d.ttl, some d.records⟩]
          = applyPatches zrs
            [⟨d.name, d.type, Changetype.REPLACE, some d.ttl, some d.records⟩] := by
        rw [applyPatches_single, applyPatches_single, ht]
        exact applyPatchEntry_replace_idem zrs d.name t d.ttl d.records
      rw [hidem]
  · -- keep false, DELETE: the second application fails
    intro zrs2 c hkeep hct hstep
    obtain ⟨ps, hp, hcase⟩ := rrsetApplyStep_ok_inv zrs [d] zrs2 c hstep
    cases hfind : findExisting zrs d with
    | none =>
      have hpr := processRRset_find_none_delete zrs d hfind hct
      have herr := rrsetsPatch_single_err zrs d _ hpr
      rw [hp] at herr
      cases herr
    | some ex =>
      have hpr := processRRset_no_keep_delete zrs d ex hfind hkeep hct
      have hp2 := rrsetsPatch_single zrs d _ hpr
      rw [hp] at hp2
      have hps := Except.ok.inj hp2
      rcases hcase with ⟨hnil, _, _⟩ | ⟨_, hz2, _⟩
      · rw [hps] at hnil
        simp at hnil
      · subst hz2
        rw [hps]
        have hfix : findExisting (applyPatches zrs
            [⟨d.name, d.type, Changetype.DELETE, some d.ttl, some d.records⟩]) d = none := by
          rw [applyPatches_single, applyPatchEntry_delete_def]
          exact findExisting_filter_out zrs d
        have hpr2 := processRRset_find_none_delete _ d hfix hct
        exact rrsetApplyStep_of_err _ _ _ (rrsetsPatch_single_err _ d _ hpr2)
  · -- keep true, DELETE: the second application is a no-op or fails
    intro zrs2 c hkeep hct hstep
    obtain ⟨ps, hp, hcase⟩ := rrsetApplyStep_ok_inv zrs [d] zrs2 c hstep
    cases hfind : findExisting zrs d with
    | none =>
      have hpr := processRRset_find_none_delete zrs d hfind hct
      have herr := rrsetsPatch_single_err zrs d _ hpr
      rw [hp] at herr
      cases herr
    | some ex =>
      have hkey := findExisting_some_key zrs d ex hfind
      by_cases heq : d.records = ex.records
      · have hpr := (processRRset_keep_eq zrs d ex hfind hkeep heq).1 hct
        have hp2 := rrsetsPatch_single zrs d _ hpr
        rw [hp] at hp2
        have hps := Except.ok.inj hp2
        rcases hcase with ⟨hnil, _, _⟩ | ⟨_, hz2, _⟩
        · rw [hps] at hnil
          simp at hnil
        · subst hz2
          rw [hps]
          right
          have hfix : findExisting (applyPatches zrs
              [⟨d.name, d.type, Changetype.DELETE, none, none⟩]) d = none := by
            rw [applyPatches_single, applyPatchEntry_delete_def]
            exact findExisting_filter_out zrs d
          have hpr2 := processRRset_find_none_delete _ d hfix hct
          exact rrsetApplyStep_of_err _ _ _ (rrsetsPatch_single_err _ d _ hpr2)
      · have hpr := processRRset_keep_delete_ne zrs d ex hfind hkeep hct heq
        by_cases hm : ex.records.filter (fun r => decide (r ∉ d.records)) = ex.records
        · rw [if_pos hm] at hpr
          have hp2 := rrsetsPatch_single zrs d _ hpr
          rw [hp] at hp2
          have hps := Except.ok.inj hp2
          rcases hcase with ⟨_, hz2, _⟩ | ⟨hne, _, _⟩
          · subst hz2
            rw [hps] at hp
            exact Or.inl (rrsetApplyStep_of_nil _ _ hp)
          · exact absurd hps hne
        · rw [if_neg hm] at hpr
          have hp2 := rrsetsPatch_single zrs d _ hpr
          rw [hp] at hp2
          have hps := Except.ok.inj hp2
          rcases hcase with ⟨hnil, _, _⟩ | ⟨_, hz2, _⟩
          · rw [hps] at hnil
            simp at hnil
          · subst hz2
            rw [hps]
            left
            have hfix : findExisting (applyPatches zrs
                [⟨d.name, d.type, Changetype.REPLACE, some d.ttl,
                  some (ex.records.filter (fun r => decide (r ∉ d.records)))⟩]) d
                = some ⟨d.name, ex.type, d.ttl,
                    ex.records.filter (fun r => decide (r ∉ d.records))⟩ := by
              rw [applyPatches_single, hkey.2, applyPatchEntry_replace_def]
              exact findExisting_append_new zrs d ex.type d.ttl _ hkey.2
            have hdis : ∀ r ∈ ex.records.filter (fun s => decide (s ∉ d.records)),
                r ∉ d.records := by
              intro r hr
              simpa using (List.mem_filter.mp hr).2
            have hdne : d.records ≠ [] := by
              intro h0
              apply hm
              rw [h0]
              apply List.filter_eq_self.mpr
              intro a _
              simp
            have hpr2 := processRRset_keep_delete_noop _ d _ hfix hkeep hct hdis hdne
            exact rrsetApplyStep_of_nil _ _ (rrsetsPatch_single _ d _ hpr2)

/-- Witness for C1: an existing RRset with one record, desired addition
of a second record with keep true: after the first application has
merged, the second application computes an empty patch and reports
changed false. -/
theorem rrset_reapply_amended_witness :
    rrsetApplyStep [⟨"i.example.", "A", 120, [⟨"1.1.1.1", false⟩, ⟨"2.2.2.2", false⟩]⟩]
        [⟨"i.example.", some "A", 120, true, Changetype.REPLACE, [⟨"2.2.2.2", false⟩]⟩]
      = Except.ok ([⟨"i.example.", "A", 120, [⟨"1.1.1.1", false⟩, ⟨"2.2.2.2", false⟩]⟩],
          false) := by
  have h := (rrset_reapply_amended [⟨"i.example.", "A", 120, [⟨"1.1.1.1", false⟩]⟩]
    ⟨"i.example.", some "A", 120, true, Changetype.REPLACE, [⟨"2.2.2.2", false⟩]⟩).1
    [⟨"i.example.", "A", 120, [⟨"1.1.1.1", false⟩, ⟨"2.2.2.2", false⟩]⟩] true
    (by decide) (by decide) (by decide) (by decide)
  exact h

end PdnsAuth
